import Mathlib

/-!
Verification of the SDP (Session Description Protocol) parser/serializer
(package `sdp`, file `sdp.go`) against its natural-language specification.

Shallow embedding conventions:
* Go strings are modelled as `Str := List Char` (the sources only handle
  ASCII line-oriented text).
* The `*bufio.Reader` line stream is modelled as a `List Str` of raw lines:
  each element is one input line with its trailing CR/LF already removed
  (exactly what `checkLine`'s `strings.TrimRight(line, "\r\n")` leaves),
  and the empty list is end of stream.  `bufio.Reader.Peek(1)` at end of
  stream yields no byte, and `ReadString('\n')` yields the empty string, so
  `[]` behaves exactly like the real reader at EOF.
* Go's `time.Time` is modelled as `Option Int`: `none` is the zero value
  (`time.Time{}`, for which `IsZero` is true) and `some u` the instant with
  Unix seconds `u` produced by `time.Unix(u, 0).UTC()`.
* Machine integers are `Int`/`Nat` with explicit wrapping where Go wraps:
  `i64` reduces an `Int` into the signed 64-bit range, and `uint16`
  additions are taken `% 65536`.
* Fallible Go functions returning `(T, error)` become `Except Err T`;
  a Go runtime panic (out-of-range slice index) is modelled by `Option`,
  `none` being the panic.
-/

namespace SDP

/-- Go `string`, as a list of characters. -/
abbrev Str := List Char

/-- The error kinds the package distinguishes: `ErrSyntax`, `ErrInvalid`
(both `sdp.go` sentinels, also when wrapped with `fmt.Errorf("%w ...")`),
`numErr` for a `strconv` parse error returned unwrapped, and `otherErr`
for a plain `fmt.Errorf` error that wraps neither sentinel. -/
inductive Err
  | syntaxErr
  | invalidErr
  | numErr
  | otherErr
deriving DecidableEq, Repr

/- ---------------------------------------------------------------------
   Small string helpers shared by the micro-grammars
   (Go: `strings.Split`, `strings.Index`, `strconv`).
--------------------------------------------------------------------- -/

/-- `strings.Split(line, sep)` for a one-character separator: every
occurrence splits, empty fields are kept, and splitting the empty string
gives one empty field. -/
def splitCh (sep : Char) : Str → List Str
  | [] => [[]]
  | c :: cs =>
    if c = sep then [] :: splitCh sep cs
    else
      match splitCh sep cs with
      | t :: ts => (c :: t) :: ts
      | [] => [[c]]

/-- `strings.Index(s, c)` for a one-character needle, as `Option`:
`none` is Go's `-1` (absent). -/
def idxOf (c : Char) : Str → Option Nat
  | [] => none
  | x :: xs => if x = c then some 0 else (idxOf c xs).map (· + 1)

/-- Decimal digit test for `strconv`'s base-10 scan. -/
def isDigit (c : Char) : Bool := '0' ≤ c && c ≤ '9'

/-- Value of a nonempty all-digit string; `none` when empty or a
non-digit occurs (the `strconv.ErrSyntax` cases of a base-10 scan). -/
def digitsVal (cs : Str) : Option Nat :=
  if cs = [] ∨ ¬ cs.all isDigit then none
  else some (cs.foldl (fun a c => a * 10 + (c.toNat - 48)) 0)

/-- The unbounded value `strconv.ParseInt(s, 10, _)` scans before its
range check: an optional single `+`/`-` sign then decimal digits. -/
def goParseIntRaw (s : Str) : Option Int :=
  match s with
  | '+' :: rest => (digitsVal rest).map Int.ofNat
  | '-' :: rest => (digitsVal rest).map (fun n => -(n : Int))
  | _ => (digitsVal s).map Int.ofNat

/-- `strconv.ParseInt(s, 10, bits)`, returning Go's `(value, err)` pair:
on a syntax error the value is 0, on a range error the value is clamped
to the nearest bound (callers below only ever use the clamped value via
`Atoi` in `parseVersion`). -/
def goParseInt (s : Str) (bits : Nat) : Int × Option Err :=
  match goParseIntRaw s with
  | none => (0, some .numErr)
  | some n =>
    if n < -(2 ^ (bits - 1) : Int) then (-(2 ^ (bits - 1) : Int), some .numErr)
    else if n > (2 ^ (bits - 1) : Int) - 1 then ((2 ^ (bits - 1) : Int) - 1, some .numErr)
    else (n, none)

/-- `strconv.ParseInt` used as a fallible parse (value discarded on error). -/
def goParseIntE (s : Str) (bits : Nat) : Except Err Int :=
  match goParseInt s bits with
  | (n, none) => .ok n
  | (_, some e) => .error e

/-- `strconv.ParseUint(s, 10, bits)` used as a fallible parse: no sign is
permitted, the value must fit `bits` unsigned bits. -/
def goParseUintE (s : Str) (bits : Nat) : Except Err Nat :=
  match digitsVal s with
  | none => .error .numErr
  | some n => if n > 2 ^ bits - 1 then .error .numErr else .ok n

/-- Signed 64-bit wraparound (Go's defined two's-complement overflow
for `int64` arithmetic). -/
def i64 (x : Int) : Int := (x + 2 ^ 63) % 2 ^ 64 - 2 ^ 63

/- ---------------------------------------------------------------------
   Decimal formatting (Go: `strconv.Itoa`, `strconv.FormatInt`,
   `strconv.FormatUint`).  The digit loop is written with a fuel
   argument so the definition stays structurally recursive; `n + 1`
   fuel always exceeds the digit count of `n`.
--------------------------------------------------------------------- -/

/-- The character of a decimal digit. -/
def digitChar (d : Nat) : Char := Char.ofNat (48 + d)

/-- Decimal digits of `n`, most significant first (fueled helper). -/
def natStrAux : Nat → Nat → Str
  | 0, _ => []
  | fuel + 1, n =>
    if n < 10 then [digitChar n]
    else natStrAux fuel (n / 10) ++ [digitChar (n % 10)]

/-- `strconv.FormatUint(n, 10)`. -/
def natStr (n : Nat) : Str := natStrAux (n + 1) n

/-- `strconv.FormatInt(n, 10)` / `strconv.Itoa`. -/
def intStr (i : Int) : Str :=
  if i < 0 then '-' :: natStr i.natAbs else natStr i.toNat

/- ---------------------------------------------------------------------
   The data model (sdp.go lines 38-177).  Go's embedded structs become
   named fields (`Sess`, `Conn`); `Type` and `List` are renamed
   (`type`, `SList`) because those names are taken in Lean.
--------------------------------------------------------------------- -/

/-- Constant `epoch` (NTP / Unix offset). -/
def epoch : Int := 2208988800

/-- Constant `NetTypeIN`. -/
def NetTypeIN : Str := "IN".toList
/-- Constant `AddrType4`. -/
def AddrType4 : Str := "IP4".toList
/-- Constant `AddrType6`. -/
def AddrType6 : Str := "IP6".toList
/-- Constant `ModeIncl`. -/
def ModeIncl : Str := "incl".toList
/-- Constant `ModeExcl`. -/
def ModeExcl : Str := "excl".toList

/-- `type Bandwidth struct` (`Type` renamed `type`). -/
structure Bandwidth where
  type : Str
  Value : Int
deriving DecidableEq, Repr

/-- `type Attribute struct`. -/
structure Attribute where
  Name : Str
  Value : Str
deriving DecidableEq, Repr

/-- `type ConnInfo struct`. -/
structure ConnInfo where
  NetType : Str
  AddrType : Str
  Addr : Str
  TTL : Int
deriving DecidableEq, Repr

/-- `func (c ConnInfo) IsZero() bool`. -/
def ConnInfo.IsZero (c : ConnInfo) : Bool :=
  c.NetType = [] && c.AddrType = [] && c.Addr = []

/-- `type Session struct` (the embedded `ConnInfo` becomes field `Conn`). -/
structure Session where
  User : Str
  ID : Int
  Ver : Int
  Conn : ConnInfo
  Name : Str
  Info : Str
  URI : Str
deriving DecidableEq, Repr

/-- Go `time.Time`, reduced to the Unix second it denotes: `none` is the
zero value `time.Time{}` and `some u` is `time.Unix(u, 0).UTC()`. -/
abbrev GoTime := Option Int

/-- `type Interval struct`. -/
structure Interval where
  Starts : GoTime
  Ends : GoTime
deriving DecidableEq, Repr

/-- `func (i Interval) IsUnbound() bool` (`Ends.IsZero()`). -/
def Interval.IsUnbound (i : Interval) : Bool := i.Ends.isNone

/-- `func (i Interval) IsPermanent() bool`. -/
def Interval.IsPermanent (i : Interval) : Bool :=
  i.Starts.isNone && i.Ends.isNone

/-- `type SourceInfo struct` (`List` renamed `SList`). -/
structure SourceInfo where
  Mode : Str
  NetType : Str
  AddrType : Str
  Addr : Str
  SList : List Str
deriving DecidableEq, Repr

/-- `type MediaInfo struct` (embedded names adjusted: `Conn`,
`Bandwidths`).  `Port` and `Count` are Go `uint16` values. -/
structure MediaInfo where
  Media : Str
  Port : Nat
  Count : Nat
  Proto : Str
  Attrs : List Str
  Info : Str
  Conn : ConnInfo
  Bandwidths : List Bandwidth
  Attributes : List Attribute
deriving DecidableEq, Repr

/-- `type File struct` (embedded `Session` and `ConnInfo` become the
named fields `Sess` and `Conn`). -/
structure File where
  Version : Int
  Sess : Session
  Email : List Str
  Phone : List Str
  Conn : ConnInfo
  Bandwidths : List Bandwidth
  Attributes : List Attribute
  Intervals : List Interval
  Medias : List MediaInfo
deriving DecidableEq, Repr

/-- The Go zero value of `ConnInfo`. -/
def zeroConn : ConnInfo := ⟨[], [], [], 0⟩

/-- The Go zero value of `File`, the state `Parse` starts from. -/
def emptyFile : File :=
  { Version := 0
    Sess := ⟨[], 0, 0, zeroConn, [], [], []⟩
    Email := []
    Phone := []
    Conn := zeroConn
    Bandwidths := []
    Attributes := []
    Intervals := []
    Medias := [] }

/- ---------------------------------------------------------------------
   Model methods and lazy source-filter parsing
   (sdp.go lines 48-55, 100-161, 210-224).
--------------------------------------------------------------------- -/

/-- `func findAttributes(name string, attrs []Attribute) (Attribute, bool)`:
first attribute with the given name. -/
def findAttributes (name : Str) (attrs : List Attribute) : Option Attribute :=
  attrs.find? (fun a => a.Name = name)

/-- `func (m MediaInfo) PortRange() []uint16`, the `arr` loop: the ports
`Port + uint16(i)` for `i < count`, appended in order (`uint16` addition
wraps modulo 2^16). -/
def portRangeAux (port : Nat) : Nat → List Nat
  | 0 => []
  | k + 1 => portRangeAux port k ++ [(port + k) % 65536]

/-- `func (m MediaInfo) PortRange() []uint16`. -/
def MediaInfo.PortRange (m : MediaInfo) : List Nat :=
  if m.Count = 0 then [m.Port] else portRangeAux m.Port m.Count

/-- `func (s SourceInfo) Include() bool`. -/
def SourceInfo.Include (s : SourceInfo) : Bool := s.Mode = ModeIncl

/- ---------------------------------------------------------------------
   Validators (sdp.go lines 603-626).
--------------------------------------------------------------------- -/

/-- `func validNetType(str string) error`. -/
def validNetType (str : Str) : Except Err Unit :=
  if str = NetTypeIN then .ok () else .error .invalidErr

/-- `func validAddrType(str string, star bool) error`.  Faithful to the
source: `IP4`/`IP6` always pass, and for any other token the error is
raised only when `!star && str != "*"`. -/
def validAddrType (str : Str) (star : Bool) : Except Err Unit :=
  if str = AddrType4 ∨ str = AddrType6 then .ok ()
  else if ¬ star ∧ str ≠ ['*'] then .error .invalidErr
  else .ok ()

/-- `func validModeType(str string) error`. -/
def validModeType (str : Str) : Except Err Unit :=
  if str = ModeIncl ∨ str = ModeExcl then .ok () else .error .invalidErr

/- ---------------------------------------------------------------------
   Micro-grammars (sdp.go lines 104-128, 291-359, 465-487, 536-557).
--------------------------------------------------------------------- -/

/-- `func parseConnectionInfo(parts []string) (ConnInfo, error)`.
A wrong token count is `ErrSyntax` (wrapped); a `/TTL` suffix found at a
positive index is parsed with `strconv.ParseInt(_, 10, 16)` and stripped
from the address. -/
def parseConnectionInfo (parts : List Str) : Except Err ConnInfo :=
  match parts with
  | [nt, aty, ad] =>
    match validNetType nt with
    | .error e => .error e
    | .ok _ =>
      match validAddrType aty false with
      | .error e => .error e
      | .ok _ =>
        match idxOf '/' ad with
        | some x =>
          if 0 < x then
            match goParseIntE (ad.drop (x + 1)) 16 with
            | .error e => .error e
            | .ok ttl => .ok ⟨nt, aty, ad.take x, ttl⟩
          else .ok ⟨nt, aty, ad, 0⟩
        | none => .ok ⟨nt, aty, ad, 0⟩
  | _ => .error .syntaxErr

/-- `func parseSourceInfo(line string) (SourceInfo, error)`.  The source
compares `len(line)` — the character count, not the token count — against
5, then indexes `parts[0]`..`parts[3]` unguarded; an out-of-range index
(a Go runtime panic) is modelled as `none`. -/
def parseSourceInfo (line : Str) : Option (Except Err SourceInfo) :=
  let parts := splitCh ' ' line
  if line.length < 5 then some (.error .syntaxErr)
  else
    match parts[0]? with
    | none => none
    | some p0 =>
      match validModeType p0 with
      | .error e => some (.error e)
      | .ok _ =>
        match parts[1]? with
        | none => none
        | some p1 =>
          match validNetType p1 with
          | .error e => some (.error e)
          | .ok _ =>
            match parts[2]? with
            | none => none
            | some p2 =>
              match validAddrType p2 true with
              | .error e => some (.error e)
              | .ok _ =>
                match parts[3]? with
                | none => none
                | some p3 => some (.ok ⟨p0, p1, p2, p3, parts.drop 4⟩)

/-- `func (f File) SourceFilter() (SourceInfo, error)`: looks up the
`source-filter` attribute and parses it lazily (`none` = panic inside
`parseSourceInfo`). -/
def File.SourceFilterR (f : File) : Option (Except Err SourceInfo) :=
  match findAttributes "source-filter".toList f.Attributes with
  | none => some (.error .otherErr)
  | some a => parseSourceInfo a.Value

/-- `func (m MediaInfo) SourceFilter() (SourceInfo, error)`. -/
def MediaInfo.SourceFilterR (m : MediaInfo) : Option (Except Err SourceInfo) :=
  match findAttributes "source-filter".toList m.Attributes with
  | none => some (.error .otherErr)
  | some a => parseSourceInfo a.Value

/-- One `b=` line's value, as parsed inside `parseBandwidthLines`
(sdp.go lines 541-554): split at the first `:`; a missing colon, an
empty type (`x <= 0`) or a colon that is the last character
(`x >= len(line)-1`) is `ErrSyntax`; the right side is a signed 64-bit
integer. -/
def parseBandwidthLine (c : Str) : Except Err Bandwidth :=
  match idxOf ':' c with
  | none => .error .syntaxErr
  | some x =>
    if x = 0 ∨ x + 1 ≥ c.length then .error .syntaxErr
    else
      match goParseIntE (c.drop (x + 1)) 64 with
      | .error e => .error e
      | .ok v => .ok ⟨c.take x, v⟩

/-- The local `parse` closure of `parseInterval` (sdp.go lines 330-336):
`strconv.ParseInt(str, 10, 64)`; an error is propagated, the value 0
gives the zero time, any other value the instant `Unix(n - epoch)`
(the subtraction wraps in `int64`). -/
def parseTimeTok (s : Str) : Except Err GoTime :=
  match goParseIntE s 64 with
  | .error e => .error e
  | .ok n => if n = 0 then .ok none else .ok (some (i64 (n - epoch)))

/-- One `t=` line's value, as parsed inside `parseInterval`'s loop
(sdp.go lines 345-356): exactly two space-separated tokens, each
converted by `parseTimeTok`. -/
def parseIntervalLine (c : Str) : Except Err Interval :=
  match splitCh ' ' c with
  | [a, b] =>
    match parseTimeTok a with
    | .error e => .error e
    | .ok s =>
      match parseTimeTok b with
      | .error e => .error e
      | .ok e2 => .ok ⟨s, e2⟩
  | _ => .error .syntaxErr

/- ---------------------------------------------------------------------
   The line cursor (sdp.go lines 585-601) over the line-list model.
--------------------------------------------------------------------- -/

/-- `func hasPrefix(rs *bufio.Reader, prefix string) bool` for the
one-character tags the tables use: peek at the first byte of the next
line (at end of stream the peek fails and the answer is false). -/
def hasTag (ls : List Str) (p : Char) : Bool :=
  match ls with
  | [] => false
  | l :: _ => l.head? = some p

/-- The prefix check and strip of `func checkLine` applied to one already
trimmed line: the line must start with `"<p>="`. -/
def checkContent (l : Str) (p : Char) : Except Err Str :=
  if l.take 2 = [p, '='] then .ok (l.drop 2) else .error .syntaxErr

/-- `func checkLine(rs *bufio.Reader, prefix string) (string, error)`:
consume one line; at end of stream `ReadString` yields the empty string,
which then fails the prefix check with `ErrSyntax`. -/
def checkLine (p : Char) : List Str → Except Err (Str × List Str)
  | [] => .error .syntaxErr
  | l :: rest =>
    match checkContent l p with
    | .error e => .error e
    | .ok c => .ok (c, rest)

/-- `func setString(rs *bufio.Reader, prefix string, required bool)`. -/
def setString (p : Char) (required : Bool) (ls : List Str) :
    Except Err (Str × List Str) :=
  if ¬ required ∧ ¬ hasTag ls p then .ok ([], ls) else checkLine p ls

/-- `func setArray(rs *bufio.Reader, prefix string) ([]string, error)`:
consume every following line with the tag, collecting its values. -/
def setArray (p : Char) : List Str → Except Err (List Str × List Str)
  | [] => .ok ([], [])
  | l :: rest =>
    if l.head? = some p then
      match checkContent l p with
      | .error e => .error e
      | .ok c =>
        match setArray p rest with
        | .error e => .error e
        | .ok (arr, r) => .ok (c :: arr, r)
    else .ok ([], l :: rest)

/-- `func skip(_ *File, rs *bufio.Reader, prefix string) error`
(used for the `r=` and `z=` tags): consume and discard. -/
def skipLines (p : Char) : List Str → Except Err (List Str)
  | [] => .ok []
  | l :: rest =>
    if l.head? = some p then
      match checkContent l p with
      | .error e => .error e
      | .ok _ => skipLines p rest
    else .ok (l :: rest)

/-- `func parseAttributeLines(rs *bufio.Reader, prefix string)`
(sdp.go lines 514-534): for each tagged line, split at the first `:`;
a line without a colon only sets the scratch variable's name and
`continue`s, so nothing is appended for it. -/
def parseAttributeLines (p : Char) : List Str → Except Err (List Attribute × List Str)
  | [] => .ok ([], [])
  | l :: rest =>
    if l.head? = some p then
      match checkContent l p with
      | .error e => .error e
      | .ok c =>
        match idxOf ':' c with
        | none => parseAttributeLines p rest
        | some x =>
          match parseAttributeLines p rest with
          | .error e => .error e
          | .ok (arr, r) => .ok (⟨c.take x, c.drop (x + 1)⟩ :: arr, r)
    else .ok ([], l :: rest)

/-- `func parseBandwidthLines(rs *bufio.Reader, prefix string)`
(sdp.go lines 536-557). -/
def parseBandwidthLines (p : Char) : List Str → Except Err (List Bandwidth × List Str)
  | [] => .ok ([], [])
  | l :: rest =>
    if l.head? = some p then
      match checkContent l p with
      | .error e => .error e
      | .ok c =>
        match parseBandwidthLine c with
        | .error e => .error e
        | .ok bw =>
          match parseBandwidthLines p rest with
          | .error e => .error e
          | .ok (arr, r) => .ok (bw :: arr, r)
    else .ok ([], l :: rest)

/-- The loop of `func parseInterval` (sdp.go lines 337-357). -/
def parseIntervalLines (p : Char) : List Str → Except Err (List Interval × List Str)
  | [] => .ok ([], [])
  | l :: rest =>
    if l.head? = some p then
      match checkContent l p with
      | .error e => .error e
      | .ok c =>
        match parseIntervalLine c with
        | .error e => .error e
        | .ok i =>
          match parseIntervalLines p rest with
          | .error e => .error e
          | .ok (is, r) => .ok (i :: is, r)
    else .ok ([], l :: rest)

/- ---------------------------------------------------------------------
   Media blocks (sdp.go lines 263-327, 367-371, 379-383, 394-401,
   427-431).
--------------------------------------------------------------------- -/

/-- `func parseMediaInfo` (media table entry `i`). -/
def parseMediaInfo (mi : MediaInfo) (ls : List Str) :
    Except Err (MediaInfo × List Str) :=
  match setString 'i' false ls with
  | .error e => .error e
  | .ok (line, rest) => .ok ({ mi with Info := line }, rest)

/-- `func parseMediaConnInfo` (media table entry `c`): an absent or empty
`c=` line is a no-op. -/
def parseMediaConnInfo (mi : MediaInfo) (ls : List Str) :
    Except Err (MediaInfo × List Str) :=
  match setString 'c' false ls with
  | .error e => .error e
  | .ok (line, rest) =>
    if line = [] then .ok (mi, rest)
    else
      match parseConnectionInfo (splitCh ' ' line) with
      | .error e => .error e
      | .ok ci => .ok ({ mi with Conn := ci }, rest)

/-- `func parseMediaBandwidth` (media table entry `b`). -/
def parseMediaBandwidth (mi : MediaInfo) (ls : List Str) :
    Except Err (MediaInfo × List Str) :=
  match parseBandwidthLines 'b' ls with
  | .error e => .error e
  | .ok (arr, rest) => .ok ({ mi with Bandwidths := arr }, rest)

/-- `func parseMediaAttributes` (media table entry `a`). -/
def parseMediaAttributes (mi : MediaInfo) (ls : List Str) :
    Except Err (MediaInfo × List Str) :=
  match parseAttributeLines 'a' ls with
  | .error e => .error e
  | .ok (arr, rest) => .ok ({ mi with Attributes := arr }, rest)

/-- `func parseMediaDescription(line string, rs *bufio.Reader)`
(sdp.go lines 291-327): at least 4 space-separated tokens; when the
second token has a `/` at a positive index `x` the source parses
`parts[1][x:]` — the suffix still carrying the `/` — as the port and
`parts[1][x+1:]` as the count; otherwise the whole token is the port.
The `mediaparsers` table (`i`, `c`, `b`, `a`) then runs in order. -/
def parseMediaDescription (line : Str) (ls : List Str) :
    Except Err (MediaInfo × List Str) :=
  match splitCh ' ' line with
  | p0 :: p1 :: p2 :: a3 :: restToks =>
    let portCount : Except Err (Nat × Nat) :=
      match idxOf '/' p1 with
      | some x =>
        if 0 < x then
          match goParseUintE (p1.drop x) 16 with
          | .error e => .error e
          | .ok port =>
            match goParseUintE (p1.drop (x + 1)) 16 with
            | .error e => .error e
            | .ok cnt => .ok (port, cnt)
        else
          match goParseUintE p1 16 with
          | .error e => .error e
          | .ok port => .ok (port, 0)
      | none =>
        match goParseUintE p1 16 with
        | .error e => .error e
        | .ok port => .ok (port, 0)
    match portCount with
    | .error e => .error e
    | .ok (port, cnt) =>
      let mi : MediaInfo :=
        { Media := p0, Port := port, Count := cnt, Proto := p2
          Attrs := a3 :: restToks, Info := [], Conn := zeroConn
          Bandwidths := [], Attributes := [] }
      match parseMediaInfo mi ls with
      | .error e => .error e
      | .ok (mi, ls) =>
        match parseMediaConnInfo mi ls with
        | .error e => .error e
        | .ok (mi, ls) =>
          match parseMediaBandwidth mi ls with
          | .error e => .error e
          | .ok (mi, ls) =>
            match parseMediaAttributes mi ls with
            | .error e => .error e
            | .ok (mi, ls) => .ok (mi, ls)
  | _ => .error .syntaxErr

/-- The loop of `func parseMedia` (sdp.go lines 273-289), with a fuel
argument to keep the recursion structural: every iteration consumes at
least the `m=` line itself, so `ls.length + 1` fuel (supplied by
`parseMedia`) can never run out; the fuel-out branch returns an error so
that an insufficient bound could not be mistaken for success. -/
def parseMediaLoop : Nat → List Str → Except Err (List MediaInfo × List Str)
  | _, [] => .ok ([], [])
  | 0, _ :: _ => .error .otherErr
  | fuel + 1, l :: rest =>
    if l.head? = some 'm' then
      match checkContent l 'm' with
      | .error e => .error e
      | .ok c =>
        match parseMediaDescription c rest with
        | .error e => .error e
        | .ok (mi, rest2) =>
          match parseMediaLoop fuel rest2 with
          | .error e => .error e
          | .ok (ms, r) => .ok (mi :: ms, r)
    else .ok ([], l :: rest)

/-- `func parseMedia(file *File, rs *bufio.Reader, prefix string)`. -/
def parseMedia (f : File) (ls : List Str) : Except Err (File × List Str) :=
  match parseMediaLoop (ls.length + 1) ls with
  | .error e => .error e
  | .ok (ms, rest) => .ok ({ f with Medias := f.Medias ++ ms }, rest)

/- ---------------------------------------------------------------------
   Session-scope handlers (sdp.go lines 361-512) and the `parsers`
   table driving them (lines 226-261).
--------------------------------------------------------------------- -/

/-- `func parseVersion` (sdp.go lines 489-499): `strconv.Atoi`, then the
version must be 0 (`ErrInvalid` otherwise — also when `Atoi` clamped a
too-large value); an `Atoi` error on a value that reads as 0 is returned
as is. -/
def parseVersion (f : File) (ls : List Str) : Except Err (File × List Str) :=
  match checkLine 'v' ls with
  | .error e => .error e
  | .ok (line, rest) =>
    let (v, e) := goParseInt line 64
    if v ≠ 0 then .error .invalidErr
    else
      match e with
      | some err => .error err
      | none => .ok ({ f with Version := v }, rest)

/-- `func parseOrigin` (sdp.go lines 443-463): exactly 6 tokens; the
`-` user sentinel leaves `User` empty; id and version are signed 64-bit
integers whose parse errors are wrapped in `ErrSyntax`; the last three
tokens are connection info. -/
def parseOrigin (f : File) (ls : List Str) : Except Err (File × List Str) :=
  match checkLine 'o' ls with
  | .error e => .error e
  | .ok (line, rest) =>
    match splitCh ' ' line with
    | [u, ids, vers, nt, aty, ad] =>
      let user := if u ≠ ['-'] then u else f.Sess.User
      match goParseIntE ids 64 with
      | .error _ => .error .syntaxErr
      | .ok idv =>
        match goParseIntE vers 64 with
        | .error _ => .error .syntaxErr
        | .ok verv =>
          match parseConnectionInfo [nt, aty, ad] with
          | .error e => .error e
          | .ok ci =>
            .ok ({ f with Sess := { f.Sess with
                     User := user, ID := idv, Ver := verv, Conn := ci } }, rest)
    | _ => .error .syntaxErr

/-- `func parseName` (sdp.go lines 433-440): the `s=` line is required
and its value must be nonempty (a plain error otherwise). -/
def parseName (f : File) (ls : List Str) : Except Err (File × List Str) :=
  match setString 's' true ls with
  | .error e => .error e
  | .ok (n, rest) =>
    if n = [] then .error .otherErr
    else .ok ({ f with Sess := { f.Sess with Name := n } }, rest)

/-- `func parseInfo` (table entry `i`). -/
def parseInfo (f : File) (ls : List Str) : Except Err (File × List Str) :=
  match setString 'i' false ls with
  | .error e => .error e
  | .ok (line, rest) => .ok ({ f with Sess := { f.Sess with Info := line } }, rest)

/-- `func parseURI` (table entry `u`). -/
def parseURI (f : File) (ls : List Str) : Except Err (File × List Str) :=
  match setString 'u' false ls with
  | .error e => .error e
  | .ok (line, rest) => .ok ({ f with Sess := { f.Sess with URI := line } }, rest)

/-- `func parseEmail` (table entry `e`). -/
def parseEmail (f : File) (ls : List Str) : Except Err (File × List Str) :=
  match setArray 'e' ls with
  | .error e => .error e
  | .ok (arr, rest) => .ok ({ f with Email := arr }, rest)

/-- `func parsePhone` (table entry `p`). -/
def parsePhone (f : File) (ls : List Str) : Except Err (File × List Str) :=
  match setArray 'p' ls with
  | .error e => .error e
  | .ok (arr, rest) => .ok ({ f with Phone := arr }, rest)

/-- `func parseConnInfo` (table entry `c`, sdp.go lines 385-392): an
absent or empty `c=` line is a no-op. -/
def parseConnInfo (f : File) (ls : List Str) : Except Err (File × List Str) :=
  match setString 'c' false ls with
  | .error e => .error e
  | .ok (line, rest) =>
    if line = [] then .ok (f, rest)
    else
      match parseConnectionInfo (splitCh ' ' line) with
      | .error e => .error e
      | .ok ci => .ok ({ f with Conn := ci }, rest)

/-- `func parseBandwidth` (table entry `b`). -/
def parseBandwidth (f : File) (ls : List Str) : Except Err (File × List Str) :=
  match parseBandwidthLines 'b' ls with
  | .error e => .error e
  | .ok (arr, rest) => .ok ({ f with Bandwidths := arr }, rest)

/-- `func parseInterval` (table entry `t`). -/
def parseIntervalH (f : File) (ls : List Str) : Except Err (File × List Str) :=
  match parseIntervalLines 't' ls with
  | .error e => .error e
  | .ok (is, rest) => .ok ({ f with Intervals := f.Intervals ++ is }, rest)

/-- `func parseAttributes` (table entry `a`). -/
def parseAttributes (f : File) (ls : List Str) : Except Err (File × List Str) :=
  match parseAttributeLines 'a' ls with
  | .error e => .error e
  | .ok (arr, rest) => .ok ({ f with Attributes := arr }, rest)

/-- `func Parse(r io.Reader) (File, error)` (sdp.go lines 226-241): the
`parsers` table applied in its fixed order `v o s i u e p c b t a r z m`
to the Go zero `File`.  (None of the handlers can surface `io.EOF` in
this model — `checkLine` turns end of stream into `ErrSyntax` and the
loops stop on a failed peek — so the table runs straight through, as it
does in the source for an in-memory reader.) -/
def Parse (ls0 : List Str) : Except Err File := do
  let (f, ls) ← parseVersion emptyFile ls0
  let (f, ls) ← parseOrigin f ls
  let (f, ls) ← parseName f ls
  let (f, ls) ← parseInfo f ls
  let (f, ls) ← parseURI f ls
  let (f, ls) ← parseEmail f ls
  let (f, ls) ← parsePhone f ls
  let (f, ls) ← parseConnInfo f ls
  let (f, ls) ← parseBandwidth f ls
  let (f, ls) ← parseIntervalH f ls
  let (f, ls) ← parseAttributes f ls
  let ls ← skipLines 'r' ls
  let ls ← skipLines 'z' ls
  let (f, _ls) ← parseMedia f ls
  pure f

/- ---------------------------------------------------------------------
   The serializer (sdp.go lines 179-208 and 628-746), as the character
   stream `DumpTo` writes: `writeEOL` always emits CR LF.
--------------------------------------------------------------------- -/

/-- `func writeEOL`. -/
def eol : Str := ['\r', '\n']

/-- `func writePrefix(w, prefix byte)`: the tag byte and `=`. -/
def writeTag (t : Char) : Str := [t, '=']

/-- `func writeConnInfo(w, conn, prefix bool)`: nothing at all for a
zero value (no line and no EOL); the `/TTL` suffix only when `TTL > 0`. -/
def writeConnInfoS (conn : ConnInfo) (tag : Bool) : Str :=
  if conn.IsZero then []
  else
    (if tag then writeTag 'c' else []) ++ conn.NetType ++ [' ']
      ++ conn.AddrType ++ [' '] ++ conn.Addr
      ++ (if conn.TTL > 0 then '/' :: intStr conn.TTL else []) ++ eol

/-- `func writeSession(w, sess Session)`: the `o=` line (with the `-`
sentinel for an empty user and the connection info inline), the `s=`
line, then optional `i=` and `u=` lines. -/
def writeSessionS (sess : Session) : Str :=
  writeTag 'o' ++ (if sess.User = [] then ['-'] else sess.User) ++ [' ']
    ++ intStr sess.ID ++ [' '] ++ intStr sess.Ver ++ [' ']
    ++ writeConnInfoS sess.Conn false
    ++ writeTag 's' ++ sess.Name ++ eol
    ++ (if sess.Info ≠ [] then writeTag 'i' ++ sess.Info ++ eol else [])
    ++ (if sess.URI ≠ [] then writeTag 'u' ++ sess.URI ++ eol else [])

/-- `func writeBandwidths`. -/
def writeBandwidthsS (bws : List Bandwidth) : Str :=
  (bws.map (fun b => writeTag 'b' ++ b.type ++ [':'] ++ intStr b.Value ++ eol)).flatten

/-- `func writeAttributes`: the colon is always written, even for an
empty value. -/
def writeAttributesS (attrs : List Attribute) : Str :=
  (attrs.map (fun a => writeTag 'a' ++ a.Name ++ [':'] ++ a.Value ++ eol)).flatten

/-- The `convert` closure of `func writeIntervals`: `"0"` for a zero
time, otherwise `t.Unix() + epoch` (wrapping in `int64`). -/
def convertTime (t : GoTime) : Str :=
  match t with
  | none => ['0']
  | some u => intStr (i64 (u + epoch))

/-- `func writeIntervals`. -/
def writeIntervalsS (is : List Interval) : Str :=
  (is.map (fun i =>
    writeTag 't' ++ convertTime i.Starts ++ [' '] ++ convertTime i.Ends ++ eol)).flatten

/-- `func writeMediaInfo`. -/
def writeMediaInfoS (m : MediaInfo) : Str :=
  writeTag 'm' ++ m.Media ++ [' '] ++ natStr m.Port
    ++ (if m.Count > 0 then '/' :: natStr m.Count else []) ++ [' '] ++ m.Proto
    ++ (m.Attrs.map (fun a => ' ' :: a)).flatten ++ eol
    ++ (if m.Info ≠ [] then writeTag 'i' ++ m.Info ++ eol else [])
    ++ writeConnInfoS m.Conn true
    ++ writeBandwidthsS m.Bandwidths
    ++ writeAttributesS m.Attributes

/-- `func (f File) Dump() string` / `func (f File) DumpTo(w io.Writer)`
(sdp.go lines 179-208): the full serialized text.  Note the emission
order of the section lists: connection info, bandwidths, **attributes,
then intervals**, then the media blocks. -/
def Dump (f : File) : Str :=
  writeTag 'v' ++ intStr f.Version ++ eol
    ++ writeSessionS f.Sess
    ++ (f.Email.map (fun e2 => writeTag 'e' ++ e2 ++ eol)).flatten
    ++ (f.Phone.map (fun p => writeTag 'p' ++ p ++ eol)).flatten
    ++ writeConnInfoS f.Conn true
    ++ writeBandwidthsS f.Bandwidths
    ++ writeAttributesS f.Attributes
    ++ writeIntervalsS f.Intervals
    ++ (f.Medias.map writeMediaInfoS).flatten

/- ---------------------------------------------------------------------
   From the serialized character stream back to the line-list model:
   what `bufio.Reader.ReadString('\n')` plus
   `strings.TrimRight(line, "\r\n")` leave of each chunk.
--------------------------------------------------------------------- -/

/-- `strings.TrimRight(line, "\r\n")` applied to a chunk already free of
`'\n'`: drop the trailing carriage returns. -/
def trimCR (s : Str) : Str := (s.reverse.dropWhile (fun c => c = '\r')).reverse

/-- The lines a reader sees in a character stream: split at every
`'\n'`, drop the empty final chunk a terminating `'\n'` leaves (that is
the reader's end of stream), trim each line's trailing CR. -/
def linesOf (s : Str) : List Str :=
  let cs := splitCh '\n' s
  (if cs.getLast? = some [] then cs.dropLast else cs).map trimCR

/-- The tag characters of a list of serialized lines (first character of
each line; every line the serializer emits is nonempty). -/
def tagsOf (ls : List Str) : List Char := ls.filterMap List.head?

/- ---------------------------------------------------------------------
   Concrete inputs the claims are settled on.
--------------------------------------------------------------------- -/

/-- A well-formed SDP input (already split into trimmed lines, the
line-list model of the text `v=0␍␊o=- 1 1 IN IP4 1.2.3.4␍␊s=x␍␊t=0 0␍␊a=k:v␍␊`)
carrying one timing interval and one session attribute. -/
def c1Input : List Str :=
  ["v=0".toList, "o=- 1 1 IN IP4 1.2.3.4".toList, "s=x".toList,
   "t=0 0".toList, "a=k:v".toList]

/-- A `source-filter` attribute whose value has three tokens and at
least five characters. -/
def sfAttr : Attribute := ⟨"source-filter".toList, "incl IN IP4".toList⟩

/-- A file carrying `sfAttr`. -/
def sfFile : File := { emptyFile with Attributes := [sfAttr] }

/-- A media block carrying `sfAttr`. -/
def sfMedia : MediaInfo :=
  { Media := [], Port := 0, Count := 0, Proto := [], Attrs := [], Info := []
    Conn := zeroConn, Bandwidths := [], Attributes := [sfAttr] }

/-- A media block with `Port` 5000 and `Count` 0. -/
def mRange0 : MediaInfo :=
  { Media := "audio".toList, Port := 5000, Count := 0, Proto := [], Attrs := []
    Info := [], Conn := zeroConn, Bandwidths := [], Attributes := [] }

/-- A media block with `Port` 5004 and `Count` 2. -/
def mRange2 : MediaInfo :=
  { Media := "audio".toList, Port := 5004, Count := 2, Proto := [], Attrs := []
    Info := [], Conn := zeroConn, Bandwidths := [], Attributes := [] }

/- ---------------------------------------------------------------------
   The claims.
--------------------------------------------------------------------- -/

/-- C1 (code bug): the round-trip `Parse (Dump f) = f` claimed by the
spec fails on the code.  The input `c1Input` parses successfully into a
file `f` with one interval `{0 0}` (and one attribute), but because
`DumpTo` emits attribute lines before interval lines while the parser
table reads `t` before `a`, reparsing `Dump f` succeeds and silently
drops the interval: the reparsed file has an empty `Intervals` list and
so is not equal to `f`. -/
theorem parse_dump_drops_intervals :
    (Parse c1Input).map File.Intervals = .ok [⟨none, none⟩] ∧
    ((Parse c1Input).bind (fun f => Parse (linesOf (Dump f)))).map File.Intervals
      = .ok [] := by
  constructor <;> rfl

/-- C2 (code bug): the serialized line tags do not follow the claimed
fixed sequence `… [t]* [a]* …` — for the parsed file of `c1Input`
(one interval, one attribute) the dump's tags are `v o s a t`: the
session-level `a=` line precedes the `t=` line, because `DumpTo` calls
`writeAttributes` before `writeIntervals`. -/
theorem dump_attr_line_precedes_interval_line :
    (Parse c1Input).map (fun f => tagsOf (linesOf (Dump f)))
      = .ok ['v', 'o', 's', 'a', 't'] := by rfl

/-- C3 (code bug): an `m=` line whose second token is `port/count` does
not parse into `Port`/`Count` — it fails.  On `audio 5004/2 RTP/AVP 0`
the source parses `parts[1][x:]` (the suffix `/2` that still carries the
slash, instead of the prefix `5004`) as the port, and
`strconv.ParseUint("/2", 10, 16)` is an error that aborts the media
description. -/
theorem media_port_count_parse_fails :
    parseMediaDescription "audio 5004/2 RTP/AVP 0".toList [] = .error .numErr ∧
    goParseUintE ("5004/2".toList.drop 4) 16 = .error .numErr := by
  constructor <;> rfl

/-- C4 (counterexample): the claim says connection-info parsing rejects
`*` with an `InvalidError` and source-filter validation rejects tokens
other than `IP4`/`IP6`/`*`; in fact `parseConnectionInfo` accepts a `*`
addr-type, and `validAddrType` with `star = true` (the source-filter
call) accepts an arbitrary token. -/
theorem conninfo_accepts_star :
    parseConnectionInfo [NetTypeIN, ['*'], "1.2.3.4".toList]
      = .ok ⟨NetTypeIN, ['*'], "1.2.3.4".toList, 0⟩ ∧
    validAddrType "BOGUS".toList true = .ok () := by
  constructor <;> rfl

/-- C4 (amended): `validAddrType`'s `star` flag acts inverted relative
to the claim.  In the source-filter context (`star = true`) every token
is accepted; in the connection-info context (`star = false`) exactly
`IP4`, `IP6` and `*` are accepted, and any other token is rejected with
an `InvalidError`. -/
theorem validAddrType_actual :
    ∀ s : Str,
      validAddrType s true = .ok () ∧
      (s = AddrType4 ∨ s = AddrType6 ∨ s = ['*'] → validAddrType s false = .ok ()) ∧
      (s ≠ AddrType4 → s ≠ AddrType6 → s ≠ ['*'] →
        validAddrType s false = .error .invalidErr) := by
  intro s
  refine ⟨?_, ?_, ?_⟩
  · by_cases h : s = AddrType4 ∨ s = AddrType6 <;> simp [validAddrType, h]
  · intro h
    rcases h with h | h | h <;> simp [validAddrType, h]
  · intro h4 h6 hs
    simp [validAddrType, h4, h6, hs]

/-- C4 (witness): `validAddrType_actual` applied at the concrete token
`XYZ`, whose side conditions are discharged by computation. -/
theorem validAddrType_actual_witness :
    validAddrType "XYZ".toList false = .error .invalidErr :=
  (validAddrType_actual "XYZ".toList).2.2 (by decide) (by decide) (by decide)

/-- C5 (counterexample): the claim says an `a=` line without a colon is
recorded as an `Attribute` with the whole line as name and an empty
value; in fact `parseAttributeLines` consumes the line `a=foo` without
appending anything — the resulting attribute list is empty. -/
theorem attr_without_colon_dropped :
    parseAttributeLines 'a' ["a=foo".toList] = .ok ([], []) := by rfl

/-- C5 (amended): each `a=` line is split on its first `:`; when a colon
is present an `Attribute` with the text before it as `Name` and the text
after it as `Value` is appended, and when no colon is present the line
is consumed but **no** attribute is recorded. -/
theorem parseAttributeLines_step :
    (∀ (p : Char) (c : Str) (x : Nat) (ls : List Str) (arr : List Attribute)
        (r : List Str),
        idxOf ':' c = some x →
        parseAttributeLines p ls = .ok (arr, r) →
        parseAttributeLines p ((p :: '=' :: c) :: ls)
          = .ok (⟨c.take x, c.drop (x + 1)⟩ :: arr, r)) ∧
    (∀ (p : Char) (c : Str) (ls : List Str),
        idxOf ':' c = none →
        parseAttributeLines p ((p :: '=' :: c) :: ls) = parseAttributeLines p ls) := by
  constructor
  · intro p c x ls arr r hx hrec
    simp [parseAttributeLines, checkContent, hx, hrec]
  · intro p c ls hx
    simp [parseAttributeLines, checkContent, hx]

/-- C5 (witness): `parseAttributeLines_step` at the concrete line
`a=k:v` over an exhausted reader. -/
theorem parseAttributeLines_step_witness :
    parseAttributeLines 'a' ["a=k:v".toList]
      = .ok ([⟨['k'], ['v']⟩], []) :=
  parseAttributeLines_step.1 'a' "k:v".toList 1 [] [] [] (by rfl) (by rfl)

/-- C6 (code bug): `parseSourceInfo` is not total.  Its early rejection
compares `len(line)` — the character count — with 5, so the line
`incl IN IP4` (11 characters, but only 3 tokens, all of which pass the
mode/net-type/addr-type validators) reaches the unguarded `parts[3]`
access and panics instead of returning an error; through the lazy
`source-filter` lookup the panic also reaches `File.SourceFilter` and
`MediaInfo.SourceFilter` (`none` models the out-of-range panic). -/
theorem parseSourceInfo_three_tokens_panics :
    parseSourceInfo "incl IN IP4".toList = none ∧
    File.SourceFilterR sfFile = none ∧
    MediaInfo.SourceFilterR sfMedia = none := by
  refine ⟨by rfl, by rfl, by rfl⟩

/-- C7: connection-info parsing of exactly 3 tokens strips a `/TTL`
suffix into the numeric `TTL` field — `IN IP4 224.2.1.1/127` yields
`NetType = IN`, `AddrType = IP4`, `Addr = 224.2.1.1`, `TTL = 127` — and
any token count other than 3 is a `SyntaxError`. -/
theorem parseConnectionInfo_ttl_and_arity :
    parseConnectionInfo [NetTypeIN, AddrType4, "224.2.1.1/127".toList]
      = .ok ⟨NetTypeIN, AddrType4, "224.2.1.1".toList, 127⟩ ∧
    ∀ parts : List Str, parts.length ≠ 3 →
      parseConnectionInfo parts = .error .syntaxErr := by
  constructor
  · rfl
  · intro parts h
    match parts with
    | [] => rfl
    | [a] => rfl
    | [a, b] => rfl
    | [a, b, c] => exact absurd rfl h
    | a :: b :: c :: d :: rest => rfl

/-- C7 (witness): `parseConnectionInfo_ttl_and_arity` applied to the
empty token list (0 tokens). -/
theorem parseConnectionInfo_ttl_and_arity_witness :
    parseConnectionInfo [] = .error .syntaxErr :=
  parseConnectionInfo_ttl_and_arity.2 [] (by decide)

/-- C8: bandwidth-line parsing splits on the first `:` — `AS:64` yields
type `AS` and value 64, and an empty left side (the first colon at
index 0, e.g. `:64`) or an empty right side (the first colon as last
character, e.g. `AS:`) is a `SyntaxError`. -/
theorem parseBandwidthLine_colon_split :
    parseBandwidthLine "AS:64".toList = .ok ⟨"AS".toList, 64⟩ ∧
    parseBandwidthLine ":64".toList = .error .syntaxErr ∧
    parseBandwidthLine "AS:".toList = .error .syntaxErr ∧
    ∀ (l : Str) (x : Nat), idxOf ':' l = some x → x = 0 ∨ x + 1 ≥ l.length →
      parseBandwidthLine l = .error .syntaxErr := by
  refine ⟨by rfl, by rfl, by rfl, ?_⟩
  intro l x h hx
  simp [parseBandwidthLine, h, hx]

/-- C8 (witness): `parseBandwidthLine_colon_split` applied to the
one-character line `:`. -/
theorem parseBandwidthLine_colon_split_witness :
    parseBandwidthLine [':'] = .error .syntaxErr :=
  parseBandwidthLine_colon_split.2.2.2 [':'] 0 (by rfl) (Or.inl rfl)

/-- C9: timing lines convert each NTP integer via
`unixSeconds = ntp - 2208988800`, with 0 giving the zero timestamp:
`0 0` parses to an interval that is both unbound and permanent, and
`3034423619 0` parses to `Starts` at Unix second 825434819 with an
unbound end. -/
theorem parseInterval_ntp_conversion :
    parseIntervalLine "0 0".toList = .ok ⟨none, none⟩ ∧
    Interval.IsUnbound ⟨none, none⟩ = true ∧
    Interval.IsPermanent ⟨none, none⟩ = true ∧
    parseIntervalLine "3034423619 0".toList = .ok ⟨some 825434819, none⟩ ∧
    Interval.IsUnbound ⟨some 825434819, none⟩ = true ∧
    (825434819 : Int) = 3034423619 - epoch ∧
    ∀ (s : Str) (n : Int), goParseIntE s 64 = .ok n →
      parseTimeTok s = .ok (if n = 0 then none else some (i64 (n - epoch))) := by
  refine ⟨by rfl, by rfl, by rfl, by rfl, by rfl, by rfl, ?_⟩
  intro s n h
  by_cases hn : n = 0 <;> simp [parseTimeTok, h, hn]

/-- C9 (witness): `parseInterval_ntp_conversion`'s conversion rule
applied to the token `0`. -/
theorem parseInterval_ntp_conversion_witness :
    parseTimeTok ['0']
      = .ok (if (0 : Int) = 0 then none else some (i64 (0 - epoch))) :=
  parseInterval_ntp_conversion.2.2.2.2.2.2 ['0'] 0 (by rfl)

/-- Closed form of the `PortRange` loop (`uint16` addition wraps
modulo 2^16). -/
theorem portRangeAux_eq (port : Nat) :
    ∀ n : Nat, portRangeAux port n
      = (List.range n).map (fun i => (port + i) % 65536) := by
  intro n
  induction n with
  | zero => rfl
  | succ k ih => simp [portRangeAux, List.range_succ, ih]

/-- C10: `PortRange` returns `[Port]` when `Count = 0` and otherwise the
`Count` consecutive ports starting at `Port` (in `uint16` arithmetic);
in particular Port 5000 / Count 0 gives `[5000]` and Port 5004 / Count 2
gives `[5004, 5005]`. -/
theorem portRange_spec :
    (∀ m : MediaInfo, m.Count = 0 → m.PortRange = [m.Port]) ∧
    (∀ m : MediaInfo, m.Count ≠ 0 →
        m.PortRange = (List.range m.Count).map (fun i => (m.Port + i) % 65536)) ∧
    MediaInfo.PortRange mRange0 = [5000] ∧
    MediaInfo.PortRange mRange2 = [5004, 5005] := by
  refine ⟨?_, ?_, by rfl, by rfl⟩
  · intro m h
    simp [MediaInfo.PortRange, h]
  · intro m h
    simp [MediaInfo.PortRange, h, portRangeAux_eq]

/-- C10 (witness): `portRange_spec` applied at the concrete media block
`mRange0`. -/
theorem portRange_spec_witness :
    MediaInfo.PortRange mRange0 = [mRange0.Port] :=
  portRange_spec.1 mRange0 (by rfl)

end SDP
